import Mathlib

set_option maxRecDepth 8192

/-!
Shallow embedding of the plexdrive chunk manager (`src/chunk.go`) and proofs
about it.

Modelling conventions:
* Go `[]byte` is `List Nat`; Go `int64`/`int` are `Int` (with `Nat` where Go
  uses a length).  Go's `%` on integers truncates toward zero, which is
  `Int.tmod`.
* Go `error` values are `Option String` (`none` = nil error).
* The on-disk chunk store is an association list from cache key
  `(ObjectID, offsetStart)` to file contents; `os.Open`/`ReadAt`,
  `os.Stat`/`WriteFile` are modelled over it (no I/O faults other than
  file absence; `Chtimes` only touches mtime and is not modelled).
* The response channel of `RequestChunk` is modelled as the list of messages
  sent on it, in order; the end of the list is the `close` of the channel.
* `int64(math.Min(float64(a), float64(b)))` is modelled as exact `min` on
  `Int` (exact whenever both arguments are below 2^53, which holds for all
  in-memory lengths and in-window offsets).
-/

/-- Byte strings: Go `[]byte` as a list of byte values. -/
abbrev Bytes := List Nat

/-- Go struct `ChunkManager` (chunk.go:17).  The `downloadManager` field is
passed to `RequestChunk` as an explicit function argument instead. -/
structure ChunkManager where
  ChunkPath : String
  ChunkSize : Int
deriving DecidableEq, Repr

/-- Go struct `ChunkRequest` (chunk.go:23), caller-supplied fields only.  The
derived fields that Go mutates in place (`fOffset`, `offsetStart`,
`offsetEnd`, `id`) are computed by `alignRequest` into `AlignedRequest`. -/
structure ChunkRequest where
  ObjectID : String
  Offset : Int
  Size : Int
  Preload : Bool
deriving DecidableEq, Repr

/-- Go struct `ChunkResponse` (chunk.go:34). -/
structure ChunkResponse where
  Error : Option String
  Bytes : Bytes
deriving DecidableEq, Repr

/-- Go `NewChunkManager` (chunk.go:40): validation of the construction
parameters.  `Except.error` is the non-nil Go error return. -/
def NewChunkManager (chunkPath : String) (chunkSize : Int) :
    Except String ChunkManager :=
  if chunkPath = "" then
    Except.error "Path to chunk file must not be empty"
  else if chunkSize < 4096 then
    Except.error "Chunk size must not be < 4096"
  else if chunkSize.tmod 1024 ≠ 0 then
    Except.error "Chunk size must be divideable by 1024"
  else
    Except.ok { ChunkPath := chunkPath, ChunkSize := chunkSize }

/-- Whether a construction attempt failed. -/
def isErr (r : Except String ChunkManager) : Bool :=
  match r with
  | Except.error _ => true
  | Except.ok _ => false

/-- The request together with the derived fields that `RequestChunk` computes
at chunk.go:66-69 (`req.fOffset`, `req.offsetStart`, `req.offsetEnd`). -/
structure AlignedRequest where
  ObjectID : String
  Offset : Int
  Size : Int
  fOffset : Int
  offsetStart : Int
  offsetEnd : Int
deriving DecidableEq, Repr

/-- Derived-field computation of chunk.go:66-69.  Go `%` is `Int.tmod`. -/
def alignRequest (m : ChunkManager) (req : ChunkRequest) : AlignedRequest :=
  let fOffset := req.Offset.tmod m.ChunkSize
  { ObjectID := req.ObjectID
    Offset := req.Offset
    Size := req.Size
    fOffset := fOffset
    offsetStart := req.Offset - fOffset
    offsetEnd := req.Offset - fOffset + m.ChunkSize }

/-- Cache key of a chunk file: object id and window start (Go builds the path
`ChunkPath/ObjectID/offsetStart`, chunk.go:97-98 and 132-133). -/
abbrev CacheKey := String × Int

/-- The on-disk chunk store: one entry per existing chunk file. -/
abbrev Disk := List (CacheKey × Bytes)

/-- File lookup by cache key (`os.Open` / `os.Stat` on the chunk path). -/
def diskFind (d : Disk) (k : CacheKey) : Option Bytes :=
  (d.find? fun e => decide (e.1 = k)).map (fun e => e.2)

/-- Cache key of an aligned request. -/
def reqKey (r : AlignedRequest) : CacheKey := (r.ObjectID, r.offsetStart)

/-- Go `f.ReadAt(buf, off)` on a file with contents `file`, where `buf` has
length `bufLen` and is zero-initialised (`make([]byte, n)`).  Returns the
number `n` of bytes read and the buffer afterwards: `min bufLen (length - off)`
bytes copied from the file starting at `off`, the rest of the buffer keeping
its zeros.  When fewer than `bufLen` bytes are available the error is `io.EOF`,
which together with a nil error is exactly the condition accepted at
chunk.go:111, so the error result is captured by `n` alone. -/
def readAt (file : Bytes) (bufLen : Nat) (off : Nat) : Nat × Bytes :=
  let n := min bufLen (file.length - off)
  (n, (file.drop off).take n ++ List.replicate (bufLen - n) 0)

/-- Go `loadChunkFromDisk` (chunk.go:96): open the chunk file for the cache
key; a missing file is an error ("Could not open file").  Otherwise read
`req.Size` bytes at `req.fOffset` into a zero-initialised buffer; if no byte
was read the result is an error ("Could not read file"); otherwise return
`buf[:eOffset]` with `eOffset = min(req.Size, len(buf))` — note Go takes the
length of the buffer here, not the byte count `n` of the read
(chunk.go:119). -/
def loadChunkFromDisk (disk : Disk) (req : AlignedRequest) : ChunkResponse :=
  match diskFind disk (reqKey req) with
  | none => { Error := some "Could not open file", Bytes := [] }
  | some file =>
      let r := readAt file req.Size.toNat req.fOffset.toNat
      if 0 < r.1 then
        let eOffset : Int := min req.Size ((r.2.length : Int))
        { Error := none, Bytes := r.2.take eOffset.toNat }
      else
        { Error := some "Could not read file", Bytes := [] }

/-- Go `storeChunkToDisk` (chunk.go:131): write the response bytes to the
chunk file only if no file exists for the cache key yet (`os.Stat` +
`os.IsNotExist`); an existing file is left untouched. -/
def storeChunkToDisk (disk : Disk) (req : AlignedRequest)
    (res : ChunkResponse) : Disk :=
  match diskFind disk (reqKey req) with
  | none => (reqKey req, res.Bytes) :: disk
  | some _ => disk

/-- Go slice expression `b[s:e]` (for `0 ≤ s ≤ e ≤ len b`). -/
def goSlice (b : Bytes) (s e : Int) : Bytes :=
  (b.drop s.toNat).take (e - s).toNat

/-- Go `RequestChunk` (chunk.go:60), the body of the spawned goroutine.
`gateway` is `m.downloadManager.RequestChunk`.  Returns the list of messages
sent on the response channel, in order, together with the disk contents after
the call.  Chunk.go:71-76: a disk error is only logged, a disk hit is sent;
chunk.go:80-90: on gateway success the sub-range
`apiRes.Bytes[sOffset:eOffset]` is sent and the full response is stored, on
gateway failure `apiRes` itself is sent and nothing is stored. -/
def RequestChunk (m : ChunkManager) (gateway : AlignedRequest → ChunkResponse)
    (disk : Disk) (req : ChunkRequest) : List ChunkResponse × Disk :=
  let r := alignRequest m req
  let diskRes := loadChunkFromDisk disk r
  let diskMsgs := if diskRes.Error = none then [diskRes] else []
  let apiRes := gateway r
  if apiRes.Error = none then
    let sOffset : Int := min r.fOffset ((apiRes.Bytes.length : Int))
    let eOffset : Int := min (r.fOffset + r.Size) ((apiRes.Bytes.length : Int))
    (diskMsgs ++ [{ Error := none, Bytes := goSlice apiRes.Bytes sOffset eOffset }],
      storeChunkToDisk disk r apiRes)
  else
    (diskMsgs ++ [apiRes], disk)

/-- The derived request keeps the caller's size field. -/
theorem alignRequest_Size (m : ChunkManager) (req : ChunkRequest) :
    (alignRequest m req).Size = req.Size := rfl

/-- C4: for every chunk size that is a multiple of 1024 and at least 4096 and
every request offset that is nonnegative, the derived fields computed by
`RequestChunk` satisfy `offsetStart ≤ Offset < offsetStart + ChunkSize`,
`offsetStart mod ChunkSize = 0` and `0 ≤ fOffset < ChunkSize`, with
`offsetStart = Offset - (Offset mod ChunkSize)` and
`offsetEnd = offsetStart + ChunkSize`. -/
theorem requestChunk_alignment (m : ChunkManager) (req : ChunkRequest)
    (hdvd : (1024 : Int) ∣ m.ChunkSize) (hsz : 4096 ≤ m.ChunkSize)
    (hoff : 0 ≤ req.Offset) :
    (alignRequest m req).offsetStart ≤ req.Offset ∧
    req.Offset < (alignRequest m req).offsetStart + m.ChunkSize ∧
    (alignRequest m req).offsetStart.tmod m.ChunkSize = 0 ∧
    0 ≤ (alignRequest m req).fOffset ∧
    (alignRequest m req).fOffset < m.ChunkSize ∧
    (alignRequest m req).offsetStart =
      req.Offset - req.Offset.tmod m.ChunkSize ∧
    (alignRequest m req).offsetEnd =
      (alignRequest m req).offsetStart + m.ChunkSize := by
  have hpos : (0 : Int) < m.ChunkSize := by omega
  have hte : req.Offset.tmod m.ChunkSize = req.Offset % m.ChunkSize :=
    Int.tmod_eq_emod hoff hpos.le
  have h0 : 0 ≤ req.Offset.tmod m.ChunkSize := Int.tmod_nonneg _ hoff
  have hlt : req.Offset.tmod m.ChunkSize < m.ChunkSize :=
    Int.tmod_lt_of_pos _ hpos
  have hstart : req.Offset - req.Offset.tmod m.ChunkSize
      = m.ChunkSize * (req.Offset / m.ChunkSize) := by
    rw [hte, Int.emod_def]; ring
  have hstart0 : 0 ≤ req.Offset - req.Offset.tmod m.ChunkSize := by
    rw [hstart]
    exact mul_nonneg hpos.le (Int.ediv_nonneg hoff hpos.le)
  have hmod0 : (req.Offset - req.Offset.tmod m.ChunkSize).tmod m.ChunkSize = 0 := by
    rw [Int.tmod_eq_emod hstart0 hpos.le, hstart, Int.mul_emod_right]
  refine ⟨?_, ?_, ?_, ?_, ?_, ?_, ?_⟩ <;>
    simp only [alignRequest] <;> omega

/-- Closed instance of `requestChunk_alignment` at chunk size 8192 and
offset 9000. -/
theorem requestChunk_alignment_witness :
    0 ≤ (alignRequest { ChunkPath := "/c", ChunkSize := 8192 }
          { ObjectID := "o", Offset := 9000, Size := 2000, Preload := false }).fOffset ∧
    (alignRequest { ChunkPath := "/c", ChunkSize := 8192 }
          { ObjectID := "o", Offset := 9000, Size := 2000, Preload := false }).fOffset <
      (8192 : Int) ∧
    (alignRequest { ChunkPath := "/c", ChunkSize := 8192 }
          { ObjectID := "o", Offset := 9000, Size := 2000, Preload := false }).offsetStart.tmod
        8192 = 0 := by
  have h := requestChunk_alignment { ChunkPath := "/c", ChunkSize := 8192 }
    { ObjectID := "o", Offset := 9000, Size := 2000, Preload := false }
    (by decide) (by decide) (by decide)
  exact ⟨h.2.2.2.1, h.2.2.2.2.1, h.2.2.1⟩

/-- C5: construction fails exactly when the path is empty, the chunk size is
below 4096, or the chunk size is not a multiple of 1024; in particular it
fails for chunk sizes 0, 1000 and 4097 and for an empty path, and succeeds
for chunk sizes 4096 and 8192 with a non-empty path. -/
theorem newChunkManager_error_iff :
    (∀ (p : String) (cs : Int),
        isErr (NewChunkManager p cs) = true ↔
          p = "" ∨ cs < 4096 ∨ cs.tmod 1024 ≠ 0) ∧
    isErr (NewChunkManager "/chunks" 0) = true ∧
    isErr (NewChunkManager "/chunks" 1000) = true ∧
    isErr (NewChunkManager "/chunks" 4097) = true ∧
    isErr (NewChunkManager "" 8192) = true ∧
    isErr (NewChunkManager "/chunks" 4096) = false ∧
    isErr (NewChunkManager "/chunks" 8192) = false := by
  refine ⟨?_, by decide, by decide, by decide, by decide, by decide, by decide⟩
  intro p cs
  unfold NewChunkManager isErr
  split_ifs with h1 h2 h3 <;> simp_all

/-- Closed instance of `newChunkManager_error_iff`: chunk size 1000 is
rejected. -/
theorem newChunkManager_error_iff_witness :
    isErr (NewChunkManager "/c" 1000) = true :=
  (newChunkManager_error_iff.1 "/c" 1000).mpr (Or.inr (Or.inl (by decide)))

/-- C1 fails on the code: on a short read, `loadChunkFromDisk` returns
`req.Size` bytes, zero-padded past end-of-file, not `min(req.Size, n)` bytes.
Here the cached file holds 100 bytes, the read at offset 0 for 200 bytes
reads `n = 100` bytes, and the function returns 200 bytes — the 100 real
bytes followed by 100 padding zeros — because chunk.go:119 clips to
`len(buf)` (always `req.Size`) instead of the byte count `n` of the read. -/
theorem loadChunkFromDisk_pads_short_read :
    (readAt (List.replicate 100 7) 200 0).1 = 100 ∧
    loadChunkFromDisk [(("obj", 0), List.replicate 100 7)]
        (alignRequest { ChunkPath := "/c", ChunkSize := 4096 }
          { ObjectID := "obj", Offset := 0, Size := 200, Preload := false }) =
      { Error := none,
        Bytes := List.replicate 100 7 ++ List.replicate 100 0 } ∧
    (loadChunkFromDisk [(("obj", 0), List.replicate 100 7)]
        (alignRequest { ChunkPath := "/c", ChunkSize := 4096 }
          { ObjectID := "obj", Offset := 0, Size := 200, Preload := false })).Bytes.length
      = 200 := by
  refine ⟨by decide, by decide, by decide⟩

/-- C3: every request yields exactly one of four message sequences determined
by the disk and gateway outcomes — disk-hit/net-ok: disk success then network
success; disk-miss/net-ok: one success; disk-hit/net-fail: success then the
gateway error; disk-miss/net-fail: one error — and in every case the stream
holds at least one and at most two messages before it is closed (the end of
the returned list). -/
theorem requestChunk_message_shapes (m : ChunkManager)
    (gateway : AlignedRequest → ChunkResponse) (disk : Disk)
    (req : ChunkRequest) :
    1 ≤ (RequestChunk m gateway disk req).1.length ∧
    (RequestChunk m gateway disk req).1.length ≤ 2 ∧
    (let r := alignRequest m req
     let diskRes := loadChunkFromDisk disk r
     let apiRes := gateway r
     let confirmed : ChunkResponse :=
       { Error := none
         Bytes := goSlice apiRes.Bytes
           (min r.fOffset ((apiRes.Bytes.length : Int)))
           (min (r.fOffset + r.Size) ((apiRes.Bytes.length : Int))) }
     (diskRes.Error = none ∧ apiRes.Error = none ∧
        (RequestChunk m gateway disk req).1 = [diskRes, confirmed]) ∨
     (diskRes.Error ≠ none ∧ apiRes.Error = none ∧
        (RequestChunk m gateway disk req).1 = [confirmed]) ∨
     (diskRes.Error = none ∧ apiRes.Error ≠ none ∧
        (RequestChunk m gateway disk req).1 = [diskRes, apiRes]) ∨
     (diskRes.Error ≠ none ∧ apiRes.Error ≠ none ∧
        (RequestChunk m gateway disk req).1 = [apiRes])) := by
  by_cases hd : (loadChunkFromDisk disk (alignRequest m req)).Error = none <;>
    by_cases ha : (gateway (alignRequest m req)).Error = none <;>
      simp [RequestChunk, hd, ha]

/-- C2: for a request with nonnegative offset and positive size, when the
gateway succeeds with a byte sequence of length `L`, the success message sent
last contains exactly the bytes of the gateway response from index
`min (Offset mod ChunkSize) L` to `min ((Offset mod ChunkSize) + Size) L`. -/
theorem requestChunk_success_subrange (m : ChunkManager)
    (gateway : AlignedRequest → ChunkResponse) (disk : Disk)
    (req : ChunkRequest) (hoff : 0 ≤ req.Offset) (hsize : 0 < req.Size)
    (hok : (gateway (alignRequest m req)).Error = none) :
    (RequestChunk m gateway disk req).1.getLast? =
      some { Error := none
             Bytes := goSlice (gateway (alignRequest m req)).Bytes
               (min (req.Offset.tmod m.ChunkSize)
                 (((gateway (alignRequest m req)).Bytes.length : Int)))
               (min (req.Offset.tmod m.ChunkSize + req.Size)
                 (((gateway (alignRequest m req)).Bytes.length : Int))) } := by
  simp only [RequestChunk, hok, if_pos, List.getLast?_concat]
  rfl

/-- Closed instance of `requestChunk_success_subrange`, the worked example of
the specification: chunk size 8192, offset 9000, size 2000, gateway response
of 1808 bytes; the success message carries the 1000 bytes at indices
808 to 1807 of the gateway response. -/
theorem requestChunk_success_subrange_witness :
    (RequestChunk { ChunkPath := "/c", ChunkSize := 8192 }
        (fun _ => { Error := none, Bytes := List.replicate 1808 7 }) []
        { ObjectID := "o", Offset := 9000, Size := 2000, Preload := false }).1.getLast? =
      some { Error := none, Bytes := List.replicate 1000 7 } := by
  have h := requestChunk_success_subrange { ChunkPath := "/c", ChunkSize := 8192 }
    (fun _ => { Error := none, Bytes := List.replicate 1808 7 }) []
    { ObjectID := "o", Offset := 9000, Size := 2000, Preload := false }
    (by decide) (by decide) rfl
  rw [h]
  decide

/-- C10: the sub-range extraction on the network-success path is total — for
every request with nonnegative offset and size, a positive chunk size, and a
gateway byte sequence of any length `L`, the bounds computed by
`RequestChunk` satisfy `0 ≤ sOffset ≤ eOffset ≤ L`, and the success message
sent last has exactly `eOffset - sOffset` bytes. -/
theorem requestChunk_subrange_total (m : ChunkManager)
    (gateway : AlignedRequest → ChunkResponse) (disk : Disk)
    (req : ChunkRequest) (hoff : 0 ≤ req.Offset) (hsize : 0 ≤ req.Size)
    (hcs : 0 < m.ChunkSize)
    (hok : (gateway (alignRequest m req)).Error = none) :
    0 ≤ min (alignRequest m req).fOffset
        (((gateway (alignRequest m req)).Bytes.length : Int)) ∧
    min (alignRequest m req).fOffset
        (((gateway (alignRequest m req)).Bytes.length : Int)) ≤
      min ((alignRequest m req).fOffset + req.Size)
        (((gateway (alignRequest m req)).Bytes.length : Int)) ∧
    min ((alignRequest m req).fOffset + req.Size)
        (((gateway (alignRequest m req)).Bytes.length : Int)) ≤
      ((gateway (alignRequest m req)).Bytes.length : Int) ∧
    ∃ msg, (RequestChunk m gateway disk req).1.getLast? = some msg ∧
      (msg.Bytes.length : Int) =
        min ((alignRequest m req).fOffset + req.Size)
            (((gateway (alignRequest m req)).Bytes.length : Int)) -
          min (alignRequest m req).fOffset
            (((gateway (alignRequest m req)).Bytes.length : Int)) := by
  have hf0 : 0 ≤ (alignRequest m req).fOffset := by
    simp only [alignRequest]
    exact Int.tmod_nonneg _ hoff
  refine ⟨by omega, by omega, by omega, ?_⟩
  refine ⟨{ Error := none
            Bytes := goSlice (gateway (alignRequest m req)).Bytes
              (min (alignRequest m req).fOffset
                (((gateway (alignRequest m req)).Bytes.length : Int)))
              (min ((alignRequest m req).fOffset + req.Size)
                (((gateway (alignRequest m req)).Bytes.length : Int))) }, ?_, ?_⟩
  · simp only [RequestChunk, hok, if_pos, List.getLast?_concat]
    rfl
  · simp only [goSlice, List.length_take, List.length_drop]
    omega

/-- C7: when the gateway fails, the terminal message of the stream is the
gateway response itself, propagated verbatim; the disk is neither created nor
modified for that request; and exactly one error message appears in the
stream (so never more than one). -/
theorem requestChunk_gateway_failure (m : ChunkManager)
    (gateway : AlignedRequest → ChunkResponse) (disk : Disk)
    (req : ChunkRequest) (e : String)
    (hfail : (gateway (alignRequest m req)).Error = some e) :
    (RequestChunk m gateway disk req).1.getLast? =
      some (gateway (alignRequest m req)) ∧
    (RequestChunk m gateway disk req).2 = disk ∧
    ((RequestChunk m gateway disk req).1.countP
        fun x => x.Error.isSome) = 1 := by
  by_cases hd : (loadChunkFromDisk disk (alignRequest m req)).Error = none <;>
    simp [RequestChunk, hd, hfail, List.countP_append, List.countP_cons,
      List.countP_nil]

/-- Closed instance of `requestChunk_gateway_failure`: a failing gateway on an
empty disk yields the gateway error as the last message, leaves the disk
empty, and produces exactly one error message. -/
theorem requestChunk_gateway_failure_witness :
    (RequestChunk { ChunkPath := "/c", ChunkSize := 8192 }
        (fun _ => { Error := some "boom", Bytes := [] }) []
        { ObjectID := "o", Offset := 9000, Size := 2000, Preload := false }).2 =
      [] :=
  (requestChunk_gateway_failure { ChunkPath := "/c", ChunkSize := 8192 }
    (fun _ => { Error := some "boom", Bytes := [] }) []
    { ObjectID := "o", Offset := 9000, Size := 2000, Preload := false }
    "boom" rfl).2.1

/-- C8: a disk-lookup failure is never surfaced: when `loadChunkFromDisk`
returns an error, the stream holds exactly one message — the
network-derived one — and any error message a consumer can observe is the
gateway response itself. -/
theorem requestChunk_disk_failure_absorbed (m : ChunkManager)
    (gateway : AlignedRequest → ChunkResponse) (disk : Disk)
    (req : ChunkRequest) (err : String)
    (hmiss : (loadChunkFromDisk disk (alignRequest m req)).Error = some err) :
    (RequestChunk m gateway disk req).1 =
      [if (gateway (alignRequest m req)).Error = none then
          { Error := none
            Bytes := goSlice (gateway (alignRequest m req)).Bytes
              (min (alignRequest m req).fOffset
                (((gateway (alignRequest m req)).Bytes.length : Int)))
              (min ((alignRequest m req).fOffset + req.Size)
                (((gateway (alignRequest m req)).Bytes.length : Int))) }
        else gateway (alignRequest m req)] ∧
    ∀ x ∈ (RequestChunk m gateway disk req).1, x.Error.isSome →
      x = gateway (alignRequest m req) := by
  by_cases ha : (gateway (alignRequest m req)).Error = none <;>
    simp [RequestChunk, hmiss, ha, alignRequest_Size]

/-- Closed instance of `requestChunk_disk_failure_absorbed`: with an empty
disk (so the lookup fails) and a succeeding gateway, the stream holds exactly
the one success message. -/
theorem requestChunk_disk_failure_absorbed_witness :
    (RequestChunk { ChunkPath := "/c", ChunkSize := 8192 }
        (fun _ => { Error := none, Bytes := List.replicate 1808 7 }) []
        { ObjectID := "o", Offset := 9000, Size := 2000, Preload := false }).1 =
      [{ Error := none, Bytes := List.replicate 1000 7 }] := by
  have h := (requestChunk_disk_failure_absorbed { ChunkPath := "/c", ChunkSize := 8192 }
    (fun _ => { Error := none, Bytes := List.replicate 1808 7 }) []
    { ObjectID := "o", Offset := 9000, Size := 2000, Preload := false }
    "Could not open file" rfl).1
  rw [h]
  decide

/-- C9: a positioned read that reads zero bytes is classified as a miss even
when it is a legitimate end-of-file: whenever the in-window offset lies at or
beyond the cached file's length, `loadChunkFromDisk` returns the read error
and the whole request is served by the single network-path message. -/
theorem loadChunkFromDisk_eof_miss (m : ChunkManager)
    (gateway : AlignedRequest → ChunkResponse) (disk : Disk)
    (req : ChunkRequest) (file : Bytes)
    (hfile : diskFind disk (reqKey (alignRequest m req)) = some file)
    (heof : (file.length : Int) ≤ (alignRequest m req).fOffset) :
    (loadChunkFromDisk disk (alignRequest m req)).Error =
      some "Could not read file" ∧
    (RequestChunk m gateway disk req).1.length = 1 := by
  have hn : (readAt file (alignRequest m req).Size.toNat
      (alignRequest m req).fOffset.toNat).1 = 0 := by
    simp only [readAt]
    omega
  have hload : (loadChunkFromDisk disk (alignRequest m req)).Error =
      some "Could not read file" := by
    simp [loadChunkFromDisk, hfile, hn]
  refine ⟨hload, ?_⟩
  by_cases ha : (gateway (alignRequest m req)).Error = none <;>
    simp [RequestChunk, hload, ha]

/-- Closed instance of `loadChunkFromDisk_eof_miss`: a cached 100-byte file
read at in-window offset 808 yields a miss and a one-message stream. -/
theorem loadChunkFromDisk_eof_miss_witness :
    (loadChunkFromDisk [(("o", 8192), List.replicate 100 7)]
        (alignRequest { ChunkPath := "/c", ChunkSize := 8192 }
          { ObjectID := "o", Offset := 9000, Size := 2000, Preload := false })).Error =
      some "Could not read file" :=
  (loadChunkFromDisk_eof_miss { ChunkPath := "/c", ChunkSize := 8192 }
    (fun _ => { Error := none, Bytes := [] })
    [(("o", 8192), List.replicate 100 7)]
    { ObjectID := "o", Offset := 9000, Size := 2000, Preload := false }
    (List.replicate 100 7) (by decide) (by decide)).1

/-- Closed instance of `requestChunk_subrange_total` at the specification's
worked example: the computed lower bound is within range. -/
theorem requestChunk_subrange_total_witness :
    0 ≤ min (alignRequest { ChunkPath := "/c", ChunkSize := 8192 }
          { ObjectID := "o", Offset := 9000, Size := 2000, Preload := false }).fOffset
        ((((fun _ => ({ Error := none, Bytes := List.replicate 1808 7 } :
              ChunkResponse)) (alignRequest { ChunkPath := "/c", ChunkSize := 8192 }
            { ObjectID := "o", Offset := 9000, Size := 2000,
              Preload := false })).Bytes.length : Int)) :=
  (requestChunk_subrange_total { ChunkPath := "/c", ChunkSize := 8192 }
    (fun _ => { Error := none, Bytes := List.replicate 1808 7 }) []
    { ObjectID := "o", Offset := 9000, Size := 2000, Preload := false }
    (by decide) (by decide) (by decide) rfl).1

/-- C6: the store step is write-once and idempotent.  First conjunct: for any
disk that already holds a file for the cache key, `storeChunkToDisk` leaves
the disk unchanged.  Rest: starting from a disk without the key and a
succeeding gateway, the first request creates exactly one file holding the
gateway bytes, and the second identical request leaves the disk identical
while still producing the gateway-derived success message. -/
theorem storeChunkToDisk_write_once (m : ChunkManager)
    (gateway : AlignedRequest → ChunkResponse) (disk : Disk)
    (req : ChunkRequest) (bs : Bytes)
    (hok : gateway (alignRequest m req) = { Error := none, Bytes := bs })
    (hmiss : diskFind disk (reqKey (alignRequest m req)) = none) :
    (∀ (d : Disk) (r : AlignedRequest) (res : ChunkResponse) (c : Bytes),
        diskFind d (reqKey r) = some c → storeChunkToDisk d r res = d) ∧
    (RequestChunk m gateway disk req).2 =
      (reqKey (alignRequest m req), bs) :: disk ∧
    (RequestChunk m gateway (RequestChunk m gateway disk req).2 req).2 =
      (RequestChunk m gateway disk req).2 ∧
    diskFind (RequestChunk m gateway (RequestChunk m gateway disk req).2 req).2
        (reqKey (alignRequest m req)) = some bs ∧
    (RequestChunk m gateway (RequestChunk m gateway disk req).2 req).1.getLast? =
      some { Error := none
             Bytes := goSlice bs
               (min (alignRequest m req).fOffset ((bs.length : Int)))
               (min ((alignRequest m req).fOffset + req.Size)
                 ((bs.length : Int))) } := by
  have hstore : ∀ (d : Disk) (r : AlignedRequest) (res : ChunkResponse)
      (c : Bytes), diskFind d (reqKey r) = some c →
        storeChunkToDisk d r res = d := by
    intro d r res c h
    simp [storeChunkToDisk, h]
  have h1 : (RequestChunk m gateway disk req).2 =
      (reqKey (alignRequest m req), bs) :: disk := by
    simp [RequestChunk, hok, storeChunkToDisk, hmiss]
  have hfind : diskFind ((reqKey (alignRequest m req), bs) :: disk)
      (reqKey (alignRequest m req)) = some bs := by
    simp [diskFind]
  have h2 : (RequestChunk m gateway (RequestChunk m gateway disk req).2 req).2 =
      (RequestChunk m gateway disk req).2 := by
    rw [h1]
    simp [RequestChunk, hok]
    rw [hstore _ _ _ bs hfind]
  refine ⟨hstore, h1, h2, ?_, ?_⟩
  · rw [h2, h1]
    exact hfind
  · rw [h1]
    simp only [RequestChunk, hok, if_pos, List.getLast?_concat]
    simp [alignRequest_Size]

/-- Closed instance of `storeChunkToDisk_write_once`: after two identical
requests on an initially empty disk, the cache holds the gateway bytes for
the window key. -/
theorem storeChunkToDisk_write_once_witness :
    diskFind (RequestChunk { ChunkPath := "/c", ChunkSize := 8192 }
        (fun _ => { Error := none, Bytes := List.replicate 1808 7 })
        (RequestChunk { ChunkPath := "/c", ChunkSize := 8192 }
          (fun _ => { Error := none, Bytes := List.replicate 1808 7 }) []
          { ObjectID := "o", Offset := 9000, Size := 2000, Preload := false }).2
        { ObjectID := "o", Offset := 9000, Size := 2000, Preload := false }).2
      (reqKey (alignRequest { ChunkPath := "/c", ChunkSize := 8192 }
        { ObjectID := "o", Offset := 9000, Size := 2000, Preload := false })) =
      some (List.replicate 1808 7) :=
  (storeChunkToDisk_write_once { ChunkPath := "/c", ChunkSize := 8192 }
    (fun _ => { Error := none, Bytes := List.replicate 1808 7 }) []
    { ObjectID := "o", Offset := 9000, Size := 2000, Preload := false }
    (List.replicate 1808 7) rfl rfl).2.2.2.1
